import Mathlib

/-!
Verification development for the StudySprint adaptive estimation and
analytics engine.  The Python source (backend/modules/estimation and
backend/modules/analytics) is shallowly embedded: SQLAlchemy rows become
structures, floats become exact rationals (ℚ), integer columns become ℤ/ℕ,
and code that can raise a Python exception returns `Except String`.
Timestamps (`datetime.utcnow()`) are threaded as an explicit `now : ℚ`
parameter.
-/

namespace StudySprint

/-- Embedding of `UserReadingPatterns` (estimation/models.py): one evolving
performance profile per content type. -/
structure UserReadingPatterns where
  average_speed_pages_per_minute : ℚ
  peak_speed_pages_per_minute : ℚ
  minimum_speed_pages_per_minute : ℚ
  morning_performance_factor : ℚ
  afternoon_performance_factor : ℚ
  evening_performance_factor : ℚ
  night_performance_factor : ℚ
  beginner_adjustment : ℚ
  intermediate_adjustment : ℚ
  advanced_adjustment : ℚ
  expert_adjustment : ℚ
  consistency_score : ℚ
  improvement_trend : ℚ
  total_study_sessions : ℕ
  last_updated : ℚ
deriving Repr, DecidableEq

/-- Column defaults of `UserReadingPatterns`, as `_get_user_reading_patterns`
creates the row (average speed 1.0, zero sessions, other columns at their
model defaults). -/
def defaultPatterns : UserReadingPatterns where
  average_speed_pages_per_minute := 1
  peak_speed_pages_per_minute := 1.5
  minimum_speed_pages_per_minute := 0.5
  morning_performance_factor := 1
  afternoon_performance_factor := 0.9
  evening_performance_factor := 0.8
  night_performance_factor := 0.6
  beginner_adjustment := 0.7
  intermediate_adjustment := 1
  advanced_adjustment := 1.3
  expert_adjustment := 1.5
  consistency_score := 0.5
  improvement_trend := 0
  total_study_sessions := 0
  last_updated := 0

/-- Embedding of `UserReadingPatterns.get_time_factor`. -/
def get_time_factor (p : UserReadingPatterns) (hour : ℕ) : ℚ :=
  if 6 ≤ hour ∧ hour < 12 then p.morning_performance_factor
  else if 12 ≤ hour ∧ hour < 18 then p.afternoon_performance_factor
  else if 18 ≤ hour ∧ hour < 24 then p.evening_performance_factor
  else p.night_performance_factor

/-- The open-ended `user_context` dict: the two keys the engine reads.
An absent key is `none`. -/
structure UserContext where
  difficulty : Option String
  energy_level : Option ℚ
deriving Repr, DecidableEq

/-- The factor breakdown returned by `_calculate_context_factors`. -/
structure ContextFactors where
  time_of_day_factor : ℚ
  difficulty_factor : ℚ
  energy_factor : ℚ
  consistency_factor : ℚ
  total_factor : ℚ
deriving Repr, DecidableEq

/-- Embedding of `EstimationService._calculate_context_factors`
(estimation/services.py).  `datetime.now().hour` is passed in as
`current_hour`.  `difficulty_map.get(difficulty, 1.0)` becomes a match with
default 1; `user_context.get("energy_level", 0.8)` becomes `getD 0.8`. -/
def calculate_context_factors (user_context : UserContext)
    (patterns : UserReadingPatterns) (current_hour : ℕ) : ContextFactors :=
  let time_of_day_factor := get_time_factor patterns current_hour
  let difficulty := user_context.difficulty.getD "intermediate"
  let difficulty_factor :=
    if difficulty = "beginner" then patterns.beginner_adjustment
    else if difficulty = "intermediate" then patterns.intermediate_adjustment
    else if difficulty = "advanced" then patterns.advanced_adjustment
    else if difficulty = "expert" then patterns.expert_adjustment
    else 1
  let energy_level := user_context.energy_level.getD 0.8
  let energy_factor := 0.5 + energy_level * 0.5
  let consistency_factor := max 0.7 patterns.consistency_score
  { time_of_day_factor := time_of_day_factor
    difficulty_factor := difficulty_factor
    energy_factor := energy_factor
    consistency_factor := consistency_factor
    total_factor :=
      time_of_day_factor * difficulty_factor * energy_factor * consistency_factor }

/-- Embedding of `EstimationService._calculate_confidence` (the numeric
score; the categorical level is derived separately by
`_score_to_confidence_level`). -/
def calculate_confidence (patterns : UserReadingPatterns)
    (context_factors : ContextFactors) : ℚ :=
  let base_confidence : ℚ := 0.5
  let session_confidence := min 0.3 ((patterns.total_study_sessions : ℚ) * 0.01)
  let consistency_confidence := patterns.consistency_score * 0.2
  let factor_stability := 1 - |context_factors.total_factor - 1|
  let stability_confidence := factor_stability * 0.2
  max 0 (min 1 (base_confidence + session_confidence + consistency_confidence
    + stability_confidence))

/-- Embedding of `EstimationHistory.calculate_accuracy` (estimation/models.py):
the accuracy score written into the history row (0 when the stored estimate
is 0, else min/max of actual and estimated). -/
def calculate_accuracy (estimated_time_minutes actual_time_minutes : ℚ) : ℚ :=
  if estimated_time_minutes = 0 then 0
  else min actual_time_minutes estimated_time_minutes
    / max actual_time_minutes estimated_time_minutes

/-- The adaptive weight of `_update_reading_patterns`:
`weight = min(0.1, 1.0 / max(1, total_sessions))`. -/
def update_weight (total_sessions : ℕ) : ℚ :=
  min 0.1 (1 / ((max 1 total_sessions : ℕ) : ℚ))

/-- Embedding of `EstimationService._update_reading_patterns`: the whole
update is guarded by `if reading_speed > 0`; otherwise the row is untouched. -/
def update_reading_patterns (p : UserReadingPatterns) (reading_speed : ℚ)
    (now : ℚ) : UserReadingPatterns :=
  if reading_speed > 0 then
    let weight := update_weight p.total_study_sessions
    let new_avg := p.average_speed_pages_per_minute * (1 - weight)
      + reading_speed * weight
    { p with
      average_speed_pages_per_minute := new_avg
      total_study_sessions := p.total_study_sessions + 1
      last_updated := now
      peak_speed_pages_per_minute :=
        if reading_speed > p.peak_speed_pages_per_minute then reading_speed
        else p.peak_speed_pages_per_minute
      minimum_speed_pages_per_minute :=
        if reading_speed < p.minimum_speed_pages_per_minute then reading_speed
        else p.minimum_speed_pages_per_minute }
  else p

/-- The `Session` row columns read by the estimation and analytics engines
(sessions/models.py): status, the two duration counters, pages covered, and
the three recorded performance scores. -/
structure SessionRow where
  status : String
  total_duration_seconds : ℤ
  active_duration_seconds : ℤ
  pages_covered : ℤ
  focus_score : ℚ
  productivity_score : ℚ
  reading_speed : ℚ
deriving Repr, DecidableEq

/-- Result of `update_estimation_from_session`: either the early-return
message for a non-completed session, or the success payload (we keep the
fields the engine computes plus the post-update pattern row). -/
inductive UpdateResult where
  | notCompleted (message : String)
  | updated (actual_time_minutes reading_speed : ℚ)
      (patterns : UserReadingPatterns)
deriving Repr, DecidableEq

/-- The guarded reading-speed computation of `update_estimation_from_session`:
`pages_covered / actual_time_minutes if actual_time_minutes > 0 else 0`. -/
def session_reading_speed (session : SessionRow) : ℚ :=
  let actual_time_minutes := (session.active_duration_seconds : ℚ) / 60
  if actual_time_minutes > 0 then (session.pages_covered : ℚ) / actual_time_minutes
  else 0

/-- Embedding of `EstimationService.update_estimation_from_session`
(record_outcome): the status guard, the guarded reading-speed computation,
and the pattern update. -/
def update_estimation_from_session (patterns : UserReadingPatterns)
    (session : SessionRow) (now : ℚ) : UpdateResult :=
  if session.status ≠ "completed" then
    .notCompleted "Session must be completed to update estimations"
  else
    let actual_time_minutes := (session.active_duration_seconds : ℚ) / 60
    let reading_speed := session_reading_speed session
    .updated actual_time_minutes reading_speed
      (update_reading_patterns patterns reading_speed now)

/-- The PDF columns `estimate_topic_completion_time` reads for its
remaining-pages total. -/
structure PDFRow where
  page_count : ℕ
  completion_percentage : ℚ
deriving Repr, DecidableEq

/-- The `remaining_pages` field of `estimate_topic_completion_time`:
`sum(pdf.page_count - pdf.completion_percentage/100 * pdf.page_count)`. -/
def remaining_pages (pdfs : List PDFRow) : ℚ :=
  (pdfs.map (fun pdf =>
    (pdf.page_count : ℚ) - pdf.completion_percentage / 100 * (pdf.page_count : ℚ))).sum

/-- Embedding of `statistics.mean` at its guarded call sites (every caller in
the analytics service checks non-emptiness first, so the empty case — where
Python would raise — is unreachable and mapped to 0). -/
def mean (xs : List ℚ) : ℚ := xs.sum / (xs.length : ℚ)

/-- Largest element of a list (used for `max(values)` on the non-empty lists
the source applies it to). -/
def listMax (xs : List ℚ) : ℚ := xs.foldl max xs.headI

/-- Smallest element of a list (used for `min(values)`). -/
def listMin (xs : List ℚ) : ℚ := xs.foldl min xs.headI

/-- Embedding of `statistics.stdev` squared: the sample variance with the
`n − 1` denominator.  Like `statistics.stdev`, it raises (`StatisticsError`)
on fewer than two data points.  The source only ever compares the standard
deviation against non-negative bounds, so squaring both sides keeps every
comparison exact while staying inside ℚ. -/
def sampleVariance (xs : List ℚ) : Except String ℚ :=
  if xs.length < 2 then .error "StatisticsError"
  else .ok (((xs.map (fun x => (x - mean xs) ^ 2)).sum) / ((xs.length : ℚ) - 1))

/-- Embedding of `AnalyticsService._calculate_trend` (analytics/services.py):
least-squares slope of the values against `range(n)`, normalized by
`(max − min)/n`, clipped to [-1, 1]; 0 for short or zero-range series. -/
def calculate_trend (values : List ℚ) : ℚ :=
  if values.length < 2 then 0
  else
    let n := values.length
    let sum_x := ∑ i ∈ Finset.range n, (i : ℚ)
    let sum_y := values.sum
    let sum_xy := ∑ i ∈ Finset.range n, (i : ℚ) * values.getD i 0
    let sum_x2 := ∑ i ∈ Finset.range n, (i : ℚ) * (i : ℚ)
    if (n : ℚ) * sum_x2 - sum_x * sum_x = 0 then 0
    else
      let slope := ((n : ℚ) * sum_xy - sum_x * sum_y)
        / ((n : ℚ) * sum_x2 - sum_x * sum_x)
      let max_change := listMax values - listMin values
      if max_change = 0 then 0
      else
        let normalized_slope := slope / (max_change / (n : ℚ))
        max (-1) (min 1 normalized_slope)

/-- One finding in the list `identify_learning_bottlenecks` builds: its
`"type"` and `"severity"` keys. -/
structure Bottleneck where
  type : String
  severity : String
deriving Repr, DecidableEq

/-- Result of `identify_learning_bottlenecks`: the no-data message dict for
an empty window, or the findings plus the overall-health classification. -/
inductive BottleneckResult where
  | noData (message : String)
  | report (bottlenecks : List Bottleneck) (overall_health : String)
deriving Repr, DecidableEq

/-- Block 1 of `identify_learning_bottlenecks` ("Low productivity sessions"):
a high-severity finding when more than 30% of the sessions score below 50. -/
def low_productivity_bottlenecks (sessions : List SessionRow) : List Bottleneck :=
  let low_productivity_sessions :=
    sessions.filter (fun s => s.productivity_score < 50)
  if (low_productivity_sessions.length : ℚ) > (sessions.length : ℚ) * 0.3 then
    [{ type := "low_productivity", severity := "high" }]
  else []

/-- Block 2 of `identify_learning_bottlenecks` ("Slow reading speed trend"). -/
def declining_speed_bottlenecks (sessions : List SessionRow) : List Bottleneck :=
  let reading_speeds :=
    (sessions.filter (fun s => s.reading_speed > 0)).map (fun s => s.reading_speed)
  if reading_speeds = [] then []
  else if calculate_trend reading_speeds < -0.1 then
    [{ type := "declining_speed", severity := "medium" }]
  else []

/-- Block 3 of `identify_learning_bottlenecks` ("Inconsistent focus
patterns").  The source compares `1 - stdev/mean < 0.6`; the scores are
filtered positive (so mean > 0) and stdev ≥ 0, hence the comparison is
exactly `25·variance > 4·mean²`, which is how it is stated here to stay
within ℚ.  A `StatisticsError` raised by `statistics.stdev` (fewer than two
positive focus scores) propagates as `.error`. -/
def inconsistent_focus_bottlenecks (sessions : List SessionRow) :
    Except String (List Bottleneck) :=
  let focus_scores :=
    (sessions.filter (fun s => s.focus_score > 0)).map (fun s => s.focus_score)
  if focus_scores = [] then .ok []
  else
    match sampleVariance focus_scores with
    | .error e => .error e
    | .ok var =>
      .ok (if var * 25 > (mean focus_scores) ^ 2 * 4 then
          [{ type := "inconsistent_focus", severity := "medium" }]
        else [])

/-- Block 4 of `identify_learning_bottlenecks` ("Session length issues"). -/
def session_length_bottlenecks (sessions : List SessionRow) : List Bottleneck :=
  let session_lengths := sessions.map (fun s => (s.total_duration_seconds : ℚ) / 60)
  let avg_length := mean session_lengths
  if avg_length > 120 then
    [{ type := "excessive_session_length", severity := "medium" }]
  else if avg_length < 30 then
    [{ type := "insufficient_session_length", severity := "low" }]
  else []

/-- The "Overall assessment" tail of `identify_learning_bottlenecks`. -/
def overall_health (bottlenecks : List Bottleneck) : String :=
  let high_count := (bottlenecks.filter (fun b => b.severity = "high")).length
  let medium_count := (bottlenecks.filter (fun b => b.severity = "medium")).length
  let low_count := (bottlenecks.filter (fun b => b.severity = "low")).length
  if high_count > 0 then "needs_attention"
  else if medium_count > 1 then "room_for_improvement"
  else if medium_count > 0 ∨ low_count > 0 then "good"
  else "excellent"

/-- Embedding of `AnalyticsService.identify_learning_bottlenecks` over the
already-queried window of completed sessions, assembled from its four
numbered blocks.  Blocks 1 and 2 are pure; the `StatisticsError` block 3 can
raise occurs before block 4 and the final assembly run in the source, so a
raise discards the whole result — exactly the `.error` propagation here. -/
def identify_learning_bottlenecks (sessions : List SessionRow) :
    Except String BottleneckResult :=
  match sessions with
  | [] => .ok (.noData "No session data available for bottleneck analysis")
  | _ :: _ =>
    match inconsistent_focus_bottlenecks sessions with
    | .error e => .error e
    | .ok bs3 =>
      let bottlenecks := low_productivity_bottlenecks sessions
        ++ declining_speed_bottlenecks sessions
        ++ bs3
        ++ session_length_bottlenecks sessions
      .ok (.report bottlenecks (overall_health bottlenecks))

/-- The spec's description of the remaining-pages total, for comparison with
`remaining_pages`: each child contributes `max(0, total_units −
completed_units)`, clamped at zero. -/
def remaining_pages_spec (pdfs : List PDFRow) : ℚ :=
  (pdfs.map (fun pdf =>
    max 0 ((pdf.page_count : ℚ)
      - pdf.completion_percentage / 100 * (pdf.page_count : ℚ)))).sum

/-- The spec's description of the trend slope, for comparison with
`calculate_trend`: the ordinary least-squares slope of the values against
their indices, in mean-centred form. -/
def ols_slope (values : List ℚ) : ℚ :=
  let n := values.length
  let xbar := (∑ i ∈ Finset.range n, (i : ℚ)) / (n : ℚ)
  let ybar := values.sum / (n : ℚ)
  (∑ i ∈ Finset.range n, ((i : ℚ) - xbar) * (values.getD i 0 - ybar))
    / (∑ i ∈ Finset.range n, ((i : ℚ) - xbar) ^ 2)

/-- C1 (amended): the adaptive weight `min(0.1, 1/max(1, session_count))` is
capped at 0.1 — it equals 0.1 for the first ten sessions (so it never starts
near 1), is non-increasing in session_count, and decays toward 0 (bounded by
1/session_count), with no 0.1 floor. -/
theorem c1_weight_capped_and_decaying (n m : ℕ) (hnm : n ≤ m) :
    update_weight n ≤ 0.1
    ∧ (n ≤ 10 → update_weight n = 0.1)
    ∧ update_weight m ≤ update_weight n
    ∧ (1 ≤ n → update_weight n ≤ 1 / (n : ℚ)) := by
  have hpos : ∀ k : ℕ, (0 : ℚ) < ((max 1 k : ℕ) : ℚ) := by
    intro k
    exact_mod_cast Nat.lt_of_lt_of_le Nat.zero_lt_one (Nat.le_max_left 1 k)
  refine ⟨min_le_left _ _, ?_, ?_, ?_⟩
  · intro h10
    have hle : ((max 1 n : ℕ) : ℚ) ≤ 10 := by
      exact_mod_cast max_le (by norm_num) h10
    have : (0.1 : ℚ) ≤ 1 / ((max 1 n : ℕ) : ℚ) := by
      have := one_div_le_one_div_of_le (hpos n) hle
      norm_num at this ⊢
      linarith
    exact min_eq_left this
  · have hmax : ((max 1 n : ℕ) : ℚ) ≤ ((max 1 m : ℕ) : ℚ) := by
      exact_mod_cast max_le_max le_rfl hnm
    exact min_le_min le_rfl (one_div_le_one_div_of_le (hpos n) hmax)
  · intro h1
    have : (max 1 n : ℕ) = n := max_eq_right h1
    calc update_weight n ≤ 1 / ((max 1 n : ℕ) : ℚ) := min_le_right _ _
      _ = 1 / (n : ℚ) := by rw [this]

/-- C1 counterexample: the weight for a brand-new pattern is 0.1 (not near
1), and at session_count = 20 the weight is 1/20 < 0.1, refuting the claimed
0.1 floor. -/
theorem c1_counterexample :
    update_weight 0 = 0.1 ∧ update_weight 20 = 1 / 20 ∧ update_weight 20 < 0.1 := by
  refine ⟨?_, ?_, ?_⟩ <;> norm_num [update_weight, min_def]

/-- C1 witness: the amended claim evaluated at session counts 5 and 20. -/
theorem c1_witness :
    update_weight 5 ≤ 0.1 ∧ update_weight 5 = 0.1
    ∧ update_weight 20 ≤ update_weight 5 ∧ update_weight 5 ≤ 1 / (5 : ℚ) :=
  ⟨(c1_weight_capped_and_decaying 5 20 (by norm_num)).1,
   (c1_weight_capped_and_decaying 5 20 (by norm_num)).2.1 (by norm_num),
   (c1_weight_capped_and_decaying 5 20 (by norm_num)).2.2.1,
   (c1_weight_capped_and_decaying 5 20 (by norm_num)).2.2.2 (by norm_num)⟩

/-- C2 (amended): the topic estimate's remaining-pages total sums the raw
per-child `page_count − completion/100 × page_count` with no clamping; only
when no child reports completion above 100% does it agree with the clamped
per-child sum and stay non-negative. -/
theorem c2_remaining_pages_unclamped (pdfs : List PDFRow)
    (h : ∀ pdf ∈ pdfs, pdf.completion_percentage ≤ 100) :
    remaining_pages pdfs = remaining_pages_spec pdfs
    ∧ 0 ≤ remaining_pages pdfs := by
  induction pdfs with
  | nil => simp [remaining_pages, remaining_pages_spec]
  | cons pdf rest ih =>
    have hpdf : pdf.completion_percentage ≤ 100 := h pdf (by simp)
    have hrest := ih (fun q hq => h q (List.mem_cons_of_mem pdf hq))
    have hcast : (0 : ℚ) ≤ (pdf.page_count : ℚ) := Nat.cast_nonneg _
    have hterm : (0 : ℚ) ≤ (pdf.page_count : ℚ)
        - pdf.completion_percentage / 100 * (pdf.page_count : ℚ) := by
      nlinarith [mul_nonneg (sub_nonneg.mpr hpdf) hcast]
    constructor
    · simp only [remaining_pages, remaining_pages_spec, List.map_cons,
        List.sum_cons] at hrest ⊢
      rw [max_eq_right hterm, hrest.1]
    · simp only [remaining_pages, List.map_cons, List.sum_cons]
      have := hrest.2
      simp only [remaining_pages] at this
      linarith

/-- C2 counterexample: a single child PDF with 10 pages reporting 150%
completion makes the code's remaining-pages total −5, while the claimed
clamped sum is 0 — the total is negative, so the per-child clamp does not
exist. -/
theorem c2_counterexample :
    remaining_pages [⟨10, 150⟩] = -5
    ∧ remaining_pages_spec [⟨10, 150⟩] = 0
    ∧ remaining_pages [⟨10, 150⟩] < 0 := by
  refine ⟨?_, ?_, ?_⟩ <;> norm_num [remaining_pages, remaining_pages_spec, max_def]

/-- C2 witness: the amended claim on one child at 50% completion. -/
theorem c2_witness :
    remaining_pages [⟨10, 50⟩] = remaining_pages_spec [⟨10, 50⟩]
    ∧ 0 ≤ remaining_pages [⟨10, 50⟩] :=
  c2_remaining_pages_unclamped [⟨10, 50⟩] (by
    intro pdf hpdf
    simp only [List.mem_singleton] at hpdf
    subst hpdf
    norm_num)

/-- C4 (amended): an unrecognized difficulty string falls back to the
default factor 1.0 and an absent energy level defaults to 0.8 (factor 0.9),
but an out-of-range energy_level is passed through unclamped: the energy
factor `0.5 + 0.5 × energy_level` is only guaranteed to lie in [0.5, 1.0]
when energy_level ∈ [0, 1]. -/
theorem c4_context_normalization (p : UserReadingPatterns) (hour : ℕ)
    (d : String)
    (hd : d ≠ "beginner" ∧ d ≠ "intermediate" ∧ d ≠ "advanced" ∧ d ≠ "expert")
    (e : ℚ) (he0 : 0 ≤ e) (he1 : e ≤ 1) :
    (calculate_context_factors ⟨some d, some e⟩ p hour).difficulty_factor = 1
    ∧ (calculate_context_factors ⟨some d, none⟩ p hour).energy_factor = 0.9
    ∧ 0.5 ≤ (calculate_context_factors ⟨some d, some e⟩ p hour).energy_factor
    ∧ (calculate_context_factors ⟨some d, some e⟩ p hour).energy_factor ≤ 1 := by
  obtain ⟨h1, h2, h3, h4⟩ := hd
  refine ⟨?_, ?_, ?_, ?_⟩ <;>
    simp only [calculate_context_factors, Option.getD_some, Option.getD_none,
      if_neg h1, if_neg h2, if_neg h3, if_neg h4]
  · norm_num
  · linarith
  · linarith

/-- C4 counterexample: energy_level = 2 (outside [0,1]) is not normalized —
the energy factor becomes 1.5, outside the documented range [0.5, 1.0]. -/
theorem c4_counterexample :
    (calculate_context_factors ⟨none, some 2⟩ defaultPatterns 8).energy_factor = 1.5
    ∧ ¬((calculate_context_factors ⟨none, some 2⟩ defaultPatterns 8).energy_factor ≤ 1) := by
  constructor <;> norm_num [calculate_context_factors, defaultPatterns]

/-- C4 witness: the amended claim at an unknown difficulty string and an
in-range energy level 1/2. -/
theorem c4_witness :
    (calculate_context_factors ⟨some "unknown", some (1/2)⟩ defaultPatterns 8).difficulty_factor = 1
    ∧ (calculate_context_factors ⟨some "unknown", none⟩ defaultPatterns 8).energy_factor = 0.9
    ∧ 0.5 ≤ (calculate_context_factors ⟨some "unknown", some (1/2)⟩ defaultPatterns 8).energy_factor
    ∧ (calculate_context_factors ⟨some "unknown", some (1/2)⟩ defaultPatterns 8).energy_factor ≤ 1 :=
  c4_context_normalization defaultPatterns 8 "unknown"
    ⟨by decide, by decide, by decide, by decide⟩ (1/2) (by norm_num) (by norm_num)

/-- C5 (confirmed): the confidence score is exactly
`0.5 + min(0.3, session_count × 0.01) + consistency × 0.2 +
(1 − |total_factor − 1|) × 0.2` clipped to [0, 1]; it always lies in [0, 1]
and, holding the other inputs fixed, is monotonically non-decreasing in the
session count. -/
theorem c5_confidence_formula_bounds_mono (p : UserReadingPatterns)
    (cf : ContextFactors) (n m : ℕ) (hnm : n ≤ m) :
    calculate_confidence p cf
      = max 0 (min 1 (0.5 + min 0.3 ((p.total_study_sessions : ℚ) * 0.01)
          + p.consistency_score * 0.2 + (1 - |cf.total_factor - 1|) * 0.2))
    ∧ 0 ≤ calculate_confidence p cf
    ∧ calculate_confidence p cf ≤ 1
    ∧ calculate_confidence { p with total_study_sessions := n } cf
        ≤ calculate_confidence { p with total_study_sessions := m } cf := by
  refine ⟨rfl, le_max_left 0 _, max_le (by norm_num) (min_le_left _ _), ?_⟩
  unfold calculate_confidence
  have hmin : min (0.3 : ℚ) ((n : ℚ) * 0.01) ≤ min 0.3 ((m : ℚ) * 0.01) := by
    refine min_le_min le_rfl ?_
    have : (n : ℚ) ≤ (m : ℚ) := by exact_mod_cast hnm
    nlinarith
  exact max_le_max le_rfl (min_le_min le_rfl (by simp only []; linarith))

/-- C5 witness: the confirmed claim at the default pattern, a neutral factor
breakdown, and session counts 3 ≤ 5. -/
theorem c5_witness :
    calculate_confidence defaultPatterns ⟨1, 1, 1, 1, 1⟩
      = max 0 (min 1 (0.5 + min 0.3 ((defaultPatterns.total_study_sessions : ℚ) * 0.01)
          + defaultPatterns.consistency_score * 0.2
          + (1 - |(1 : ℚ) - 1|) * 0.2))
    ∧ 0 ≤ calculate_confidence defaultPatterns ⟨1, 1, 1, 1, 1⟩
    ∧ calculate_confidence defaultPatterns ⟨1, 1, 1, 1, 1⟩ ≤ 1
    ∧ calculate_confidence { defaultPatterns with total_study_sessions := 3 } ⟨1, 1, 1, 1, 1⟩
        ≤ calculate_confidence { defaultPatterns with total_study_sessions := 5 } ⟨1, 1, 1, 1, 1⟩ :=
  c5_confidence_formula_bounds_mono defaultPatterns ⟨1, 1, 1, 1, 1⟩ 3 5 (by norm_num)

/-- C6 (confirmed): for positive estimated and actual times the stored
accuracy score is `min/max`, symmetric in its two arguments, and lies in
(0, 1]. -/
theorem c6_accuracy_symmetric (est act : ℚ) (hest : 0 < est) (hact : 0 < act) :
    calculate_accuracy est act = min est act / max est act
    ∧ calculate_accuracy est act = calculate_accuracy act est
    ∧ 0 < calculate_accuracy est act
    ∧ calculate_accuracy est act ≤ 1 := by
  unfold calculate_accuracy
  rw [if_neg hest.ne', if_neg hact.ne']
  refine ⟨by rw [min_comm, max_comm], by rw [min_comm, max_comm], ?_, ?_⟩
  · exact div_pos (lt_min hact hest) (lt_max_iff.mpr (Or.inl hact))
  · exact div_le_one_of_le₀ min_le_max (le_of_lt (lt_max_iff.mpr (Or.inl hact)))

/-- C6 witness: the claim at estimated = 2, actual = 3. -/
theorem c6_witness :
    calculate_accuracy 2 3 = min 2 3 / max 2 3
    ∧ calculate_accuracy 2 3 = calculate_accuracy 3 2
    ∧ 0 < calculate_accuracy 2 3
    ∧ calculate_accuracy 2 3 ≤ 1 :=
  c6_accuracy_symmetric 2 3 (by norm_num) (by norm_num)

/-- C8 (confirmed): a completed session with zero or negative active
duration yields reading speed 0, the pattern row is left untouched, and the
call still returns the success payload rather than an error. -/
theorem c8_zero_active_minutes (p : UserReadingPatterns) (s : SessionRow)
    (now : ℚ) (h1 : s.status = "completed") (h2 : s.active_duration_seconds ≤ 0) :
    update_estimation_from_session p s now
      = .updated ((s.active_duration_seconds : ℚ) / 60) 0 p := by
  have hz : (s.active_duration_seconds : ℚ) ≤ 0 := by exact_mod_cast h2
  have ht : ¬((s.active_duration_seconds : ℚ) / 60 > 0) := by
    rw [not_lt]
    linarith
  have hspeed : session_reading_speed s = 0 := by
    unfold session_reading_speed
    rw [if_neg ht]
  have hup0 : update_reading_patterns p 0 now = p := by
    unfold update_reading_patterns
    rw [if_neg (lt_irrefl 0)]
  unfold update_estimation_from_session
  rw [if_neg (by simp [h1]), hspeed]
  simp [hup0]

/-- C8 witness: the claim at a completed session with 0 active seconds. -/
theorem c8_witness :
    update_estimation_from_session defaultPatterns
      ⟨"completed", 0, 0, 0, 0, 0, 0⟩ 0
      = .updated (((0 : ℤ) : ℚ) / 60) 0 defaultPatterns :=
  c8_zero_active_minutes defaultPatterns ⟨"completed", 0, 0, 0, 0, 0, 0⟩ 0 rfl
    (by norm_num)

/-- C10 (confirmed frame property): whenever a completed session's computed
reading speed is 0, record_outcome leaves every field of the pattern row
unchanged — average speed, session count, peak and minimum speeds, and the
last-updated timestamp. -/
theorem c10_zero_speed_frame (p : UserReadingPatterns) (s : SessionRow)
    (now : ℚ) (h1 : s.status = "completed")
    (h2 : session_reading_speed s = 0) :
    update_estimation_from_session p s now
      = .updated ((s.active_duration_seconds : ℚ) / 60) 0 p
    ∧ (update_reading_patterns p (session_reading_speed s) now).average_speed_pages_per_minute
        = p.average_speed_pages_per_minute
    ∧ (update_reading_patterns p (session_reading_speed s) now).total_study_sessions
        = p.total_study_sessions
    ∧ (update_reading_patterns p (session_reading_speed s) now).peak_speed_pages_per_minute
        = p.peak_speed_pages_per_minute
    ∧ (update_reading_patterns p (session_reading_speed s) now).minimum_speed_pages_per_minute
        = p.minimum_speed_pages_per_minute
    ∧ (update_reading_patterns p (session_reading_speed s) now).last_updated
        = p.last_updated := by
  have hup0 : update_reading_patterns p 0 now = p := by
    unfold update_reading_patterns
    rw [if_neg (lt_irrefl 0)]
  have hup : update_reading_patterns p (session_reading_speed s) now = p := by
    rw [h2, hup0]
  refine ⟨?_, by rw [hup], by rw [hup], by rw [hup], by rw [hup], by rw [hup]⟩
  unfold update_estimation_from_session
  rw [if_neg (by simp [h1]), h2]
  simp [hup0]

/-- C10 witness: a completed session with positive active time but zero
pages covered (computed speed 0) leaves the default pattern intact. -/
theorem c10_witness :
    update_estimation_from_session defaultPatterns
      ⟨"completed", 120, 60, 0, 0, 0, 0⟩ 7
      = .updated (((60 : ℤ) : ℚ) / 60) 0 defaultPatterns
    ∧ (update_reading_patterns defaultPatterns
        (session_reading_speed ⟨"completed", 120, 60, 0, 0, 0, 0⟩) 7).average_speed_pages_per_minute
        = defaultPatterns.average_speed_pages_per_minute
    ∧ (update_reading_patterns defaultPatterns
        (session_reading_speed ⟨"completed", 120, 60, 0, 0, 0, 0⟩) 7).total_study_sessions
        = defaultPatterns.total_study_sessions
    ∧ (update_reading_patterns defaultPatterns
        (session_reading_speed ⟨"completed", 120, 60, 0, 0, 0, 0⟩) 7).peak_speed_pages_per_minute
        = defaultPatterns.peak_speed_pages_per_minute
    ∧ (update_reading_patterns defaultPatterns
        (session_reading_speed ⟨"completed", 120, 60, 0, 0, 0, 0⟩) 7).minimum_speed_pages_per_minute
        = defaultPatterns.minimum_speed_pages_per_minute
    ∧ (update_reading_patterns defaultPatterns
        (session_reading_speed ⟨"completed", 120, 60, 0, 0, 0, 0⟩) 7).last_updated
        = defaultPatterns.last_updated :=
  c10_zero_speed_frame defaultPatterns ⟨"completed", 120, 60, 0, 0, 0, 0⟩ 7 rfl
    (by norm_num [session_reading_speed])

lemma sum_range_cast (n : ℕ) :
    (∑ i ∈ Finset.range n, (i : ℚ)) = (n : ℚ) * ((n : ℚ) - 1) / 2 := by
  induction n with
  | zero => simp
  | succ k ih =>
    rw [Finset.sum_range_succ, ih]
    push_cast
    ring

lemma sum_range_sq_cast (n : ℕ) :
    (∑ i ∈ Finset.range n, (i : ℚ) * (i : ℚ))
      = (n : ℚ) * ((n : ℚ) - 1) * (2 * (n : ℚ) - 1) / 6 := by
  induction n with
  | zero => simp
  | succ k ih =>
    rw [Finset.sum_range_succ, ih]
    push_cast
    ring

lemma trend_denom_pos (n : ℕ) (hn : 2 ≤ n) :
    0 < (n : ℚ) * (∑ i ∈ Finset.range n, (i : ℚ) * (i : ℚ))
      - (∑ i ∈ Finset.range n, (i : ℚ)) * (∑ i ∈ Finset.range n, (i : ℚ)) := by
  have hx : (2 : ℚ) ≤ (n : ℚ) := by exact_mod_cast hn
  rw [sum_range_cast, sum_range_sq_cast]
  have key : (n : ℚ) * ((n : ℚ) * ((n : ℚ) - 1) * (2 * (n : ℚ) - 1) / 6)
      - ((n : ℚ) * ((n : ℚ) - 1) / 2) * ((n : ℚ) * ((n : ℚ) - 1) / 2)
      = (n : ℚ) ^ 2 * ((n : ℚ) - 1) * ((n : ℚ) + 1) / 12 := by ring
  rw [key]
  apply div_pos _ (by norm_num)
  have h0 : (0 : ℚ) < (n : ℚ) := by linarith
  exact mul_pos (mul_pos (pow_pos h0 2) (by linarith)) (by linarith)

lemma list_sum_eq_sum_getD (values : List ℚ) :
    values.sum = ∑ i ∈ Finset.range values.length, values.getD i 0 := by
  induction values with
  | nil => simp
  | cons v vs ih =>
    rw [List.sum_cons, List.length_cons, Finset.sum_range_succ', ih]
    simp [add_comm]

lemma foldl_max_const (c : ℚ) (vs : List ℚ) (h : ∀ x ∈ vs, x = c) :
    vs.foldl max c = c := by
  induction vs with
  | nil => rfl
  | cons x xs ih =>
    have hx : x = c := h x (by simp)
    rw [List.foldl_cons, hx, max_self]
    exact ih (fun y hy => h y (by simp [hy]))

lemma foldl_min_const (c : ℚ) (vs : List ℚ) (h : ∀ x ∈ vs, x = c) :
    vs.foldl min c = c := by
  induction vs with
  | nil => rfl
  | cons x xs ih =>
    have hx : x = c := h x (by simp)
    rw [List.foldl_cons, hx, min_self]
    exact ih (fun y hy => h y (by simp [hy]))

lemma listMax_eq_listMin_of_const (values : List ℚ)
    (h : ∀ x ∈ values, x = values.headI) : listMax values = listMin values := by
  cases values with
  | nil => rfl
  | cons v vs =>
    have hmax := foldl_max_const v (v :: vs) (by simpa using h)
    have hmin := foldl_min_const v (v :: vs) (by simpa using h)
    unfold listMax listMin
    simp only [List.headI] at hmax hmin ⊢
    rw [hmax, hmin]

lemma centred_sum_mul (n : ℕ) (hn : (n : ℚ) ≠ 0) (f g : ℕ → ℚ) :
    (∑ i ∈ Finset.range n,
        (f i - (∑ j ∈ Finset.range n, f j) / (n : ℚ))
          * (g i - (∑ j ∈ Finset.range n, g j) / (n : ℚ)))
      = (∑ i ∈ Finset.range n, f i * g i)
        - (∑ j ∈ Finset.range n, f j) * (∑ j ∈ Finset.range n, g j) / (n : ℚ) := by
  have expand : ∀ i ∈ Finset.range n,
      (f i - (∑ j ∈ Finset.range n, f j) / (n : ℚ))
          * (g i - (∑ j ∈ Finset.range n, g j) / (n : ℚ))
        = f i * g i - ((∑ j ∈ Finset.range n, f j) / (n : ℚ)) * g i
          - ((∑ j ∈ Finset.range n, g j) / (n : ℚ)) * f i
          + ((∑ j ∈ Finset.range n, f j) / (n : ℚ))
            * ((∑ j ∈ Finset.range n, g j) / (n : ℚ)) := by
    intro i _
    ring
  rw [Finset.sum_congr rfl expand]
  simp only [Finset.sum_add_distrib, Finset.sum_sub_distrib, ← Finset.mul_sum,
    Finset.sum_const, Finset.card_range, nsmul_eq_mul]
  field_simp
  ring

lemma centred_sum_sq (n : ℕ) (hn : (n : ℚ) ≠ 0) (f : ℕ → ℚ) :
    (∑ i ∈ Finset.range n, (f i - (∑ j ∈ Finset.range n, f j) / (n : ℚ)) ^ 2)
      = (∑ i ∈ Finset.range n, f i * f i)
        - (∑ j ∈ Finset.range n, f j) * (∑ j ∈ Finset.range n, f j) / (n : ℚ) := by
  rw [← centred_sum_mul n hn f f]
  exact Finset.sum_congr rfl (fun i _ => sq _)

lemma code_slope_eq_ols (values : List ℚ) (hn : 2 ≤ values.length) :
    ((values.length : ℚ) * (∑ i ∈ Finset.range values.length, (i : ℚ) * values.getD i 0)
        - (∑ i ∈ Finset.range values.length, (i : ℚ)) * values.sum)
      / ((values.length : ℚ) * (∑ i ∈ Finset.range values.length, (i : ℚ) * (i : ℚ))
        - (∑ i ∈ Finset.range values.length, (i : ℚ))
          * (∑ i ∈ Finset.range values.length, (i : ℚ)))
      = ols_slope values := by
  have hn0 : (values.length : ℚ) ≠ 0 := Nat.cast_ne_zero.mpr (by omega)
  have hden := trend_denom_pos values.length hn
  simp only [ols_slope]
  rw [list_sum_eq_sum_getD values,
    centred_sum_mul values.length hn0 (fun i => (i : ℚ)) (fun i => values.getD i 0),
    centred_sum_sq values.length hn0 (fun i => (i : ℚ))]
  have hD2 : (∑ i ∈ Finset.range values.length, (i : ℚ) * (i : ℚ))
      - (∑ j ∈ Finset.range values.length, (j : ℚ))
        * (∑ j ∈ Finset.range values.length, (j : ℚ)) / (values.length : ℚ) ≠ 0 := by
    intro hc
    apply ne_of_gt hden
    have hmul := congrArg (fun t => t * (values.length : ℚ)) hc
    simp only [zero_mul] at hmul
    rw [sub_mul, div_mul_cancel₀ _ hn0] at hmul
    linarith [hmul]
  rw [div_eq_div_iff (ne_of_gt hden) hD2]
  field_simp
  ring

/-- C7 (confirmed): the trend statistic always lies in [-1, 1]; it is 0 for
series shorter than two points and for constant (zero-range) series; and on
every other series it equals the ordinary least-squares slope of value
against index, normalized by (max − min)/n and clipped to [-1, 1]. -/
theorem c7_trend_spec (values : List ℚ) :
    (-1 ≤ calculate_trend values ∧ calculate_trend values ≤ 1)
    ∧ (values.length < 2 → calculate_trend values = 0)
    ∧ ((∀ x ∈ values, x = values.headI) → calculate_trend values = 0)
    ∧ (2 ≤ values.length → listMax values ≠ listMin values →
        calculate_trend values
          = max (-1) (min 1 (ols_slope values
              / ((listMax values - listMin values) / (values.length : ℚ))))) := by
  refine ⟨?_, ?_, ?_, ?_⟩
  · simp only [calculate_trend]
    split_ifs <;> exact ⟨by norm_num, by norm_num⟩
  · intro h
    simp only [calculate_trend]
    rw [if_pos h]
  · intro hconst
    have hmm := listMax_eq_listMin_of_const values hconst
    simp only [calculate_trend]
    split_ifs with h1 h2 h3
    · rfl
    · rfl
    · rfl
    · exact absurd (by rw [hmm]; ring) h3
  · intro hn hneq
    simp only [calculate_trend]
    rw [if_neg (not_lt.mpr hn),
      if_neg (ne_of_gt (trend_denom_pos values.length hn)),
      if_neg (sub_ne_zero.mpr hneq), code_slope_eq_ols values hn]

/-- C7 witness: the refinement clause evaluated on the series [1, 2, 3]. -/
theorem c7_witness :
    calculate_trend [1, 2, 3]
      = max (-1) (min 1 (ols_slope [1, 2, 3]
          / ((listMax [1, 2, 3] - listMin [1, 2, 3])
            / (([1, 2, 3] : List ℚ).length : ℚ)))) :=
  (c7_trend_spec [1, 2, 3]).2.2.2 (by norm_num)
    (by norm_num [listMax, listMin, List.foldl, max_def, min_def])

/-- C3: a window with exactly one session carrying a positive focus score
makes the focus-consistency branch call `statistics.stdev` on a one-element
list, which raises instead of returning a typed result — the guard the spec
describes does not exist on this path. -/
theorem c3_single_focus_session_raises :
    identify_learning_bottlenecks
        [⟨"completed", 3600, 3000, 10, 80, 90, 1⟩]
      = .error "StatisticsError" := rfl

lemma lp_mem_low_productivity_iff (sessions : List SessionRow) :
    ({ type := "low_productivity", severity := "high" } : Bottleneck)
        ∈ low_productivity_bottlenecks sessions
      ↔ ((sessions.filter (fun s => s.productivity_score < 50)).length : ℚ)
          > (sessions.length : ℚ) * 0.3 := by
  simp only [low_productivity_bottlenecks]
  split_ifs with h <;> simp [h]

lemma declining_speed_types (sessions : List SessionRow) :
    ∀ b ∈ declining_speed_bottlenecks sessions, b.type = "declining_speed" := by
  intro b hb
  simp only [declining_speed_bottlenecks] at hb
  split_ifs at hb
  · simp at hb
  · simp only [List.mem_singleton] at hb
    subst hb
    rfl
  · simp at hb

lemma session_length_types (sessions : List SessionRow) :
    ∀ b ∈ session_length_bottlenecks sessions, b.type ≠ "low_productivity" := by
  intro b hb
  simp only [session_length_bottlenecks] at hb
  split_ifs at hb
  · simp only [List.mem_singleton] at hb
    subst hb
    decide
  · simp only [List.mem_singleton] at hb
    subst hb
    decide
  · simp at hb

lemma inconsistent_focus_ok (sessions : List SessionRow)
    (hfocus : (sessions.filter (fun s => s.focus_score > 0)).length ≠ 1) :
    ∃ bs3, inconsistent_focus_bottlenecks sessions = .ok bs3
      ∧ ∀ b ∈ bs3, b.type = "inconsistent_focus" := by
  simp only [inconsistent_focus_bottlenecks]
  by_cases hf :
      (sessions.filter (fun s => s.focus_score > 0)).map (fun s => s.focus_score) = []
  · rw [if_pos hf]
    exact ⟨[], rfl, by simp⟩
  · rw [if_neg hf]
    have hlen : ¬(((sessions.filter (fun s => s.focus_score > 0)).map
        (fun s => s.focus_score)).length < 2) := by
      rw [List.length_map]
      have h0 : (sessions.filter (fun s => s.focus_score > 0)).length ≠ 0 := by
        intro hc
        exact hf (by rw [List.length_eq_zero.mp hc]; rfl)
      omega
    simp only [sampleVariance]
    rw [if_neg hlen]
    refine ⟨_, rfl, ?_⟩
    intro b hb
    split_ifs at hb
    · simp only [List.mem_singleton] at hb
      subst hb
      rfl
    · simp at hb

/-- C9 (amended): over every non-empty window of completed sessions in which
the number of sessions with a positive focus score is not exactly one (so
the unguarded focus-consistency stdev cannot raise, see C3), the detector
returns a report that contains a low_productivity bottleneck — always with
severity high — exactly when strictly more than 30% of the sessions score
below 50. -/
theorem c9_low_productivity_rule (sessions : List SessionRow)
    (hne : sessions ≠ [])
    (hfocus : (sessions.filter (fun s => s.focus_score > 0)).length ≠ 1) :
    ∃ bs health, identify_learning_bottlenecks sessions = .ok (.report bs health)
    ∧ (({ type := "low_productivity", severity := "high" } : Bottleneck) ∈ bs
        ↔ ((sessions.filter (fun s => s.productivity_score < 50)).length : ℚ)
            > (sessions.length : ℚ) * 0.3)
    ∧ (∀ b ∈ bs, b.type = "low_productivity" → b.severity = "high") := by
  obtain ⟨bs3, hbs3, hbs3t⟩ := inconsistent_focus_ok sessions hfocus
  obtain ⟨s, rest, rfl⟩ := List.exists_cons_of_ne_nil hne
  have hid : identify_learning_bottlenecks (s :: rest)
      = .ok (.report (low_productivity_bottlenecks (s :: rest)
          ++ declining_speed_bottlenecks (s :: rest)
          ++ bs3
          ++ session_length_bottlenecks (s :: rest))
        (overall_health (low_productivity_bottlenecks (s :: rest)
          ++ declining_speed_bottlenecks (s :: rest)
          ++ bs3
          ++ session_length_bottlenecks (s :: rest)))) := by
    simp only [identify_learning_bottlenecks]
    rw [hbs3]
  refine ⟨_, _, hid, ?_, ?_⟩
  · simp only [List.mem_append]
    constructor
    · rintro (((h | h) | h) | h)
      · exact (lp_mem_low_productivity_iff _).mp h
      · exact absurd (declining_speed_types _ _ h) (by decide)
      · exact absurd (hbs3t _ h) (by decide)
      · exact absurd rfl (session_length_types _ _ h)
    · intro hc
      exact Or.inl (Or.inl (Or.inl ((lp_mem_low_productivity_iff _).mpr hc)))
  · intro b hb htype
    simp only [List.mem_append] at hb
    rcases hb with ((h | h) | h) | h
    · simp only [low_productivity_bottlenecks] at h
      split_ifs at h
      · simp only [List.mem_singleton] at h
        subst h
        rfl
      · simp at h
    · have hdt := declining_speed_types _ _ h
      rw [htype] at hdt
      exact absurd hdt (by decide)
    · have := hbs3t b h
      rw [htype] at this
      exact absurd this (by decide)
    · exact absurd htype (session_length_types _ b h)

/-- A ten-session window: four sessions score productivity 40 (below 50, a
40% share) and exactly one session has a positive focus score. -/
def windowSingleFocus : List SessionRow :=
  [⟨"completed", 3600, 3000, 10, 80, 40, 1⟩,
   ⟨"completed", 3600, 3000, 10, 0, 40, 1⟩,
   ⟨"completed", 3600, 3000, 10, 0, 40, 1⟩,
   ⟨"completed", 3600, 3000, 10, 0, 40, 1⟩,
   ⟨"completed", 3600, 3000, 10, 0, 90, 1⟩,
   ⟨"completed", 3600, 3000, 10, 0, 90, 1⟩,
   ⟨"completed", 3600, 3000, 10, 0, 90, 1⟩,
   ⟨"completed", 3600, 3000, 10, 0, 90, 1⟩,
   ⟨"completed", 3600, 3000, 10, 0, 90, 1⟩,
   ⟨"completed", 3600, 3000, 10, 0, 90, 1⟩]

/-- The same ten-session window with every focus score positive. -/
def windowManyFocus : List SessionRow :=
  [⟨"completed", 3600, 3000, 10, 80, 40, 1⟩,
   ⟨"completed", 3600, 3000, 10, 80, 40, 1⟩,
   ⟨"completed", 3600, 3000, 10, 80, 40, 1⟩,
   ⟨"completed", 3600, 3000, 10, 80, 40, 1⟩,
   ⟨"completed", 3600, 3000, 10, 80, 90, 1⟩,
   ⟨"completed", 3600, 3000, 10, 80, 90, 1⟩,
   ⟨"completed", 3600, 3000, 10, 80, 90, 1⟩,
   ⟨"completed", 3600, 3000, 10, 80, 90, 1⟩,
   ⟨"completed", 3600, 3000, 10, 80, 90, 1⟩,
   ⟨"completed", 3600, 3000, 10, 80, 90, 1⟩]

/-- C9 counterexample: ten completed sessions, four of them (40% > 30%)
below productivity 50, but only one with a positive focus score — the
detector raises on the focus branch and reports no low_productivity
bottleneck at all, refuting the unconditional claim. -/
theorem c9_counterexample :
    ((windowSingleFocus.filter (fun s => s.productivity_score < 50)).length : ℚ)
        > (windowSingleFocus.length : ℚ) * 0.3
    ∧ identify_learning_bottlenecks windowSingleFocus = .error "StatisticsError" := by
  constructor
  · norm_num [windowSingleFocus]
  · rfl

/-- C9 witness: the amended claim on the ten-session window whose focus
scores are all positive. -/
theorem c9_witness :
    ∃ bs health,
      identify_learning_bottlenecks windowManyFocus = .ok (.report bs health)
      ∧ (({ type := "low_productivity", severity := "high" } : Bottleneck) ∈ bs
          ↔ ((windowManyFocus.filter (fun s => s.productivity_score < 50)).length : ℚ)
              > (windowManyFocus.length : ℚ) * 0.3)
      ∧ (∀ b ∈ bs, b.type = "low_productivity" → b.severity = "high") :=
  c9_low_productivity_rule windowManyFocus (by simp [windowManyFocus]) (by decide)

end StudySprint
